import Mathlib

/-!
Verification development for the `generate-message` Supabase edge function of
the career-connect-ai repository (src/supabase/functions/generate-message/index.ts).

The TypeScript code is shallowly embedded: strings are Lean `String`s
(sequences of code points), the JavaScript regular-expression scans are
modelled as explicit left-to-right scanning functions with the exact
semantics of the regexes used by the source (`/\((.*?)\)/g`, `/<[^>]*>/g`,
`/\s+/g`), network effects (the file fetch and the two provider calls) are
modelled as explicit outcome parameters, and thrown/caught exceptions are
modelled by the value the enclosing handler converts them to.
-/

set_option maxRecDepth 100000

/-- Boolean substring test: `substrB n h` is `true` iff the character list `n`
occurs contiguously inside `h`.  Used to state all "the prompt contains ..."
properties. -/
def substrB (n : List Char) : List Char → Bool
  | [] => n.isEmpty
  | c :: rest => n.isPrefixOf (c :: rest) || substrB n rest

/-- String-level containment, via `substrB` on the underlying data. -/
def containsStr (n h : String) : Bool := substrB n.data h.data

theorem isPrefixOf_extend (n : List Char) :
    ∀ l b : List Char, n.isPrefixOf l = true → n.isPrefixOf (l ++ b) = true := by
  induction n with
  | nil => intro l b _; simp [List.isPrefixOf]
  | cons c cr ih =>
    intro l b h
    cases l with
    | nil => simp [List.isPrefixOf] at h
    | cons d dr =>
      simp only [List.isPrefixOf, Bool.and_eq_true] at h
      simp only [List.cons_append, List.isPrefixOf, Bool.and_eq_true]
      exact ⟨h.1, ih dr b h.2⟩

theorem substrB_nil_left : ∀ l : List Char, substrB [] l = true := by
  intro l
  cases l with
  | nil => rfl
  | cons c rest => simp [substrB, List.isPrefixOf]

theorem substrB_append_of_right (n a b : List Char) (h : substrB n b = true) :
    substrB n (a ++ b) = true := by
  induction a with
  | nil => simpa using h
  | cons c cr ih =>
    simp only [List.cons_append, substrB, Bool.or_eq_true]
    exact Or.inr ih

theorem substrB_append_of_left (n : List Char) :
    ∀ a b : List Char, substrB n a = true → substrB n (a ++ b) = true := by
  intro a
  induction a with
  | nil =>
    intro b h
    simp only [substrB, List.isEmpty_iff] at h
    subst h
    exact substrB_nil_left _
  | cons c cr ih =>
    intro b h
    simp only [substrB, Bool.or_eq_true] at h
    simp only [List.cons_append, substrB, Bool.or_eq_true]
    cases h with
    | inl hp => exact Or.inl (isPrefixOf_extend n (c :: cr) b hp)
    | inr hs => exact Or.inr (ih b hs)

theorem isPrefixOf_refl : ∀ l : List Char, l.isPrefixOf l = true := by
  intro l
  induction l with
  | nil => rfl
  | cons c rest ih => simp [List.isPrefixOf, ih]

theorem substrB_self (l : List Char) : substrB l l = true := by
  cases l with
  | nil => rfl
  | cons c rest => simp [substrB, isPrefixOf_refl]

theorem string_data_append (a b : String) : (a ++ b).data = a.data ++ b.data := rfl

theorem containsStr_append_right (n a b : String) (h : containsStr n b = true) :
    containsStr n (a ++ b) = true := by
  unfold containsStr at *
  rw [string_data_append]
  exact substrB_append_of_right _ _ _ h

theorem containsStr_append_left (n a b : String) (h : containsStr n a = true) :
    containsStr n (a ++ b) = true := by
  unfold containsStr at *
  rw [string_data_append]
  exact substrB_append_of_left _ _ _ h

theorem containsStr_self (s : String) : containsStr s s = true := substrB_self s.data

/-- Number of starting positions at which the character list `n` occurs in the
second list; used to state the (absence of) fragment deduplication. -/
def countOccur (n : List Char) : List Char → Nat
  | [] => 0
  | c :: rest => (if n.isPrefixOf (c :: rest) then 1 else 0) + countOccur n rest

/-- A JavaScript regex line terminator (the characters not matched by `.`):
newline, carriage return, line separator, paragraph separator. -/
def isLineTerm (c : Char) : Bool :=
  c = '\n' || c = '\r' || c = Char.ofNat 0x2028 || c = Char.ofNat 0x2029

/-- One lazy match attempt of `/\((.*?)\)/` just after an opening parenthesis:
consume characters up to the first `)` provided no line terminator intervenes
(`.` does not match line terminators), returning the captured content and the
remainder after the closing parenthesis; `none` when the attempt fails. -/
def takeContent : List Char → Option (List Char × List Char)
  | [] => none
  | c :: rest =>
    if c = ')' then some ([], rest)
    else if isLineTerm c then none
    else
      match takeContent rest with
      | some (f, r) => some (c :: f, r)
      | none => none

theorem takeContent_length :
    ∀ l f r, takeContent l = some (f, r) → r.length < l.length := by
  intro l
  induction l with
  | nil => intro f r h; simp [takeContent] at h
  | cons c rest ih =>
    intro f r h
    simp only [takeContent] at h
    by_cases hc : c = ')'
    · rw [if_pos hc] at h
      cases h
      simp
    · rw [if_neg hc] at h
      by_cases hl : isLineTerm c
      · rw [if_pos hl] at h; cases h
      · rw [if_neg hl] at h
        cases hr : takeContent rest with
        | none => rw [hr] at h; cases h
        | some p =>
          rw [hr] at h
          cases p with
          | mk f0 r0 =>
            cases h
            exact Nat.lt_trans (ih f0 r (by rw [hr])) (Nat.lt_succ_self _)

theorem takeContent_closes (f : List Char)
    (hf : ∀ c ∈ f, c ≠ ')' ∧ isLineTerm c = false) :
    ∀ rest : List Char, takeContent (f ++ ')' :: rest) = some (f, rest) := by
  induction f with
  | nil => intro rest; simp [takeContent]
  | cons c cr ih =>
    intro rest
    have hc := hf c (List.mem_cons_self c cr)
    simp only [List.cons_append, takeContent, List.append_eq, if_neg hc.1, hc.2,
      if_neg Bool.false_ne_true]
    rw [ih (fun d hd => hf d (List.mem_cons_of_mem c hd)) rest]

/-- The `g`-flagged scan of `text.match(/\((.*?)\)/g)` in the PDF branch of
`extractTextFromFile`: walk the decoded byte text; at each `(` attempt a lazy
match; on success emit the captured fragment and resume after the closing
parenthesis, otherwise resume at the next character. -/
def pdfFragments : List Char → List (List Char)
  | [] => []
  | c :: rest =>
    if c = '(' then
      match h : takeContent rest with
      | some (f, r) => f :: pdfFragments r
      | none => pdfFragments rest
    else pdfFragments rest
termination_by l => l.length
decreasing_by
  · exact Nat.lt_trans (takeContent_length rest f r h) (Nat.lt_succ_self _)
  · exact Nat.lt_succ_self _
  · exact Nat.lt_succ_self _

theorem pdfFragments_nil : pdfFragments [] = [] := by
  rw [pdfFragments]

theorem pdfFragments_skip (c : Char) (rest : List Char) (h : c ≠ '(') :
    pdfFragments (c :: rest) = pdfFragments rest := by
  rw [pdfFragments, if_neg h]

theorem pdfFragments_open (f rest : List Char)
    (hf : ∀ c ∈ f, c ≠ ')' ∧ isLineTerm c = false) :
    pdfFragments ('(' :: (f ++ ')' :: rest)) = f :: pdfFragments rest := by
  have hts := takeContent_closes f hf rest
  rw [pdfFragments, if_pos rfl]
  split
  · rename_i f1 r1 heq
    rw [hts] at heq
    injection heq with hpair
    rw [Prod.mk.injEq] at hpair
    rw [hpair.1, hpair.2]
  · rename_i heq
    rw [hts] at heq
    cases heq

theorem pdfFragments_no_open : ∀ l : List Char, '(' ∉ l → pdfFragments l = [] := by
  intro l
  induction l with
  | nil => intro _; exact pdfFragments_nil
  | cons c rest ih =>
    intro h
    rw [pdfFragments_skip c rest (fun hc => h (hc ▸ List.mem_cons_self c rest))]
    exact ih (fun hm => h (List.mem_cons_of_mem c hm))

/-- One match attempt of `/<[^>]*>/` just after a `<`: skip to the first `>`
and return the remainder, `none` when no `>` follows anywhere. -/
def dropTag : List Char → Option (List Char)
  | [] => none
  | c :: rest => if c = '>' then some rest else dropTag rest

theorem dropTag_length : ∀ l r, dropTag l = some r → r.length < l.length := by
  intro l
  induction l with
  | nil => intro r h; simp [dropTag] at h
  | cons c rest ih =>
    intro r h
    simp only [dropTag] at h
    by_cases hc : c = '>'
    · rw [if_pos hc] at h
      cases h
      simp
    · rw [if_neg hc] at h
      exact Nat.lt_trans (ih r h) (Nat.lt_succ_self _)

/-- The `g`-flagged scan of `text.replace(/<[^>]*>/g, ' ')` in the DOCX branch
of `extractTextFromFile`: each region from a `<` to the next `>` is replaced
by a single space; a `<` with no later `>` is left as-is. -/
def stripTags : List Char → List Char
  | [] => []
  | c :: rest =>
    if c = '<' then
      match h : dropTag rest with
      | some r => ' ' :: stripTags r
      | none => c :: stripTags rest
    else c :: stripTags rest
termination_by l => l.length
decreasing_by
  · exact Nat.lt_trans (dropTag_length rest r h) (Nat.lt_succ_self _)
  · exact Nat.lt_succ_self _
  · exact Nat.lt_succ_self _

theorem stripTags_nil : stripTags [] = [] := by
  rw [stripTags]

theorem stripTags_skip (c : Char) (rest : List Char) (h : c ≠ '<') :
    stripTags (c :: rest) = c :: stripTags rest := by
  rw [stripTags, if_neg h]

theorem dropTag_none : ∀ l : List Char, '>' ∉ l → dropTag l = none := by
  intro l
  induction l with
  | nil => intro _; rfl
  | cons c rest ih =>
    intro h
    have hc : c ≠ '>' := fun hc => h (by rw [hc]; exact List.mem_cons_self _ _)
    simp only [dropTag, if_neg hc]
    exact ih (fun hm => h (List.mem_cons_of_mem c hm))

theorem stripTags_id : ∀ l : List Char, '<' ∉ l → stripTags l = l := by
  intro l
  induction l with
  | nil => intro _; exact stripTags_nil
  | cons c rest ih =>
    intro h
    rw [stripTags_skip c rest (fun hc => h (hc ▸ List.mem_cons_self c rest))]
    rw [ih (fun hm => h (List.mem_cons_of_mem c hm))]

/-- The JavaScript `\s` whitespace class used by `/\s+/g`. -/
def isJsWs (c : Char) : Bool :=
  c = ' ' || c = '\t' || c = '\n' || c = '\r' ||
  c = Char.ofNat 0xb || c = Char.ofNat 0xc ||
  c = Char.ofNat 0xa0 || c = Char.ofNat 0x1680 ||
  (0x2000 ≤ c.toNat && c.toNat ≤ 0x200a) ||
  c = Char.ofNat 0x2028 || c = Char.ofNat 0x2029 ||
  c = Char.ofNat 0x202f || c = Char.ofNat 0x205f ||
  c = Char.ofNat 0x3000 || c = Char.ofNat 0xfeff

/-- The scan of `.replace(/\s+/g, ' ')`, tracked with a flag recording whether
the previous character belonged to the current whitespace run: every maximal
run of JavaScript whitespace becomes a single space. -/
def collapseWsAux : Bool → List Char → List Char
  | _, [] => []
  | inRun, c :: rest =>
    if isJsWs c then
      if inRun then collapseWsAux true rest else ' ' :: collapseWsAux true rest
    else c :: collapseWsAux false rest

/-- `.replace(/\s+/g, ' ')` over the whole text. -/
def collapseWs (l : List Char) : List Char := collapseWsAux false l

theorem collapseWs_nil : collapseWs [] = [] := rfl

theorem collapseWs_skip (c : Char) (rest : List Char) (h : isJsWs c = false) :
    collapseWs (c :: rest) = c :: collapseWs rest := by
  unfold collapseWs
  rw [collapseWsAux]
  simp [h]

theorem collapseWs_id : ∀ l : List Char, (∀ c ∈ l, isJsWs c = false) → collapseWs l = l := by
  intro l
  induction l with
  | nil => intro _; exact collapseWs_nil
  | cons c rest ih =>
    intro h
    rw [collapseWs_skip c rest (h c (List.mem_cons_self c rest))]
    rw [ih (fun d hd => h d (List.mem_cons_of_mem c hd))]

/-- `String.prototype.trim`: drop whitespace from both ends. -/
def jsTrim (l : List Char) : List Char :=
  ((l.dropWhile isJsWs).reverse.dropWhile isJsWs).reverse

theorem dropWhile_id_of (l : List Char) (h : ∀ c ∈ l, isJsWs c = false) :
    l.dropWhile isJsWs = l := by
  cases l with
  | nil => rfl
  | cons c rest =>
    have hc : isJsWs c = false := h c (List.mem_cons_self c rest)
    rw [List.dropWhile_cons]
    simp [hc]

theorem jsTrim_id (l : List Char) (h : ∀ c ∈ l, isJsWs c = false) : jsTrim l = l := by
  unfold jsTrim
  rw [dropWhile_id_of l h]
  rw [dropWhile_id_of l.reverse (fun c hc => h c (List.mem_reverse.mp hc))]
  exact List.reverse_reverse l

/-- The cleaned DOCX text of the source's else-branch:
`text.replace(/<[^>]*>/g, ' ').replace(/\s+/g, ' ').trim()`. -/
def docxClean (l : List Char) : List Char := jsTrim (collapseWs (stripTags l))

/-- `Array.prototype.join(' ')` on the fragment list. -/
def joinSpace : List String → String
  | [] => ""
  | [s] => s
  | s :: rest => s ++ " " ++ joinSpace rest

/-- The placeholder returned when fewer than 50 characters were extracted
(lines 40 and 52 of the source). -/
def fallbackShort (fileUrl fileType : String) : String :=
  "Resume file from: " ++ fileUrl ++ ". File type: " ++ fileType ++
    ". Please analyze based on typical resume structure."

/-- The fallback returned from the `catch` block when the fetch fails or an
extraction error is thrown (line 58 of the source). -/
def fallbackErr (fileUrl fileType : String) : String :=
  "Resume file from: " ++ fileUrl ++ ". File type: " ++ fileType ++
    ". Unable to extract full text, please provide general guidance."

/-- Outcome of `fetch(fileUrl)` followed by `TextDecoder().decode`: either the
decoded body text, or failure (a network error or a non-ok response status,
both of which throw into the `catch` block).  The permissive `TextDecoder`
never fails, so a successful fetch always yields a string. -/
inductive FetchOutcome where
  | fail
  | ok (body : String)

/-- Shallow embedding of `extractTextFromFile(fileUrl, fileType)` (lines
22-60 of the source) with the network fetch made explicit.  The PDF branch
joins the `/\((.*?)\)/g` captures with spaces; the else branch (taken for
`docx` and any other declared type) strips tags, collapses whitespace, trims,
and truncates to 10,000 characters; both branches substitute `fallbackShort`
below 50 extracted characters, and any thrown error yields `fallbackErr`. -/
def extractTextFromFile (fileUrl fileType : String) (fetched : FetchOutcome) : String :=
  match fetched with
  | .fail => fallbackErr fileUrl fileType
  | .ok body =>
    if fileType = "pdf" then
      if (joinSpace ((pdfFragments body.data).map String.mk)).length < 50 then
        fallbackShort fileUrl fileType
      else joinSpace ((pdfFragments body.data).map String.mk)
    else
      if (String.mk (docxClean body.data)).length < 50 then
        fallbackShort fileUrl fileType
      else String.mk ((docxClean body.data).take 10000)

theorem strLength_append (a b : String) : (a ++ b).length = a.length + b.length := by
  show ((a ++ b).data).length = a.data.length + b.data.length
  rw [string_data_append, List.length_append]

/-- The `languageInstruction` conditional chain of `buildPrompt` (lines
69-73 of the source): `tamil` and `both` are recognized; every other value
falls through to the English-only instruction. -/
def languageInstruction (language : String) : String :=
  if language = "tamil" then "Write the entire message in Tamil language only."
  else if language = "both" then
    "Write the message in both English and Tamil. First provide the English version, then the Tamil version."
  else "Write the entire message in English only."

/-- The `questionsSection` block of `buildPrompt` (lines 75-81). -/
def questionsSection (includeQuestions : Bool) : String :=
  if includeQuestions then
    "\n✅ Interview Questions Section:\n- Include 5-8 interview questions relevant to the candidate\u0027s skills and experience\n- Questions should be practical and commonly asked in interviews for their field\n- Format as a numbered list"
  else ""

/-- The `atsSection` block of `buildPrompt` (lines 83-88). -/
def atsSection (includeAtsScore : Bool) : String :=
  if includeAtsScore then
    "\n✅ ATS Score Section:\n- Provide an estimated ATS (Applicant Tracking System) compatibility score out of 100\n- Briefly explain what could improve the score"
  else ""

/-- Literal text of the prompt template up to `${customerName}`. -/
def promptIntro : String :=
  "You are a friendly shop assistant at a Xerox/Printout shop called \"Fintech BMS\". A customer named "

/-- Literal text between `${customerName}` and `${extractedText}`. -/
def promptAfterName : String :=
  " has just had their resume printed. \n\nAnalyze the following resume and generate a WhatsApp-ready message that builds trust and provides value:\n\nRESUME CONTENT:\n"

/-- Literal text between `${extractedText}` and `${questionsSection}`. -/
def promptSections : String :=
  "\n\nGenerate a message that includes:\n\n✅ Appreciation Message:\n- Thank them warmly for choosing our shop\n- Use a friendly, professional tone\n\n✅ Short Resume Feedback:\n- Provide 2-3 positive observations about their resume\n- Mention any standout skills or experience\n\n✅ Career Guidance/Tips:\n- Give 2-3 actionable career tips relevant to their profile\n- Keep it encouraging and practical\n\n✅ Job Role Suggestions:\n- Suggest 3-5 job roles that match their profile\n- Be specific based on their skills and experience\n"

/-- Literal text between `${atsSection}` and `${languageInstruction}`. -/
def promptClosing : String :=
  "\n\n✅ Final Encouragement:\n- End with a motivating message\n- Wish them success in their job search\n\nIMPORTANT RULES:\n1. "

/-- Literal tail of the prompt template after `${languageInstruction}`,
containing the fixed rules 2-7 with the mandatory disclaimer. -/
def promptRules : String :=
  "\n2. Keep the message concise and WhatsApp-friendly (easy to read on mobile)\n3. Use light emojis: ✅ 🔥 🙏 🙂 👍 💼 📝 (don\u0027t overuse)\n4. NO fake claims like \"you got selected\" or \"interview scheduled\"\n5. MUST include this disclaimer at the end: \"📝 Note: This is general guidance based on your resume. Results may vary. Best wishes! 🙏\"\n6. Keep it professional but warm - like a helpful friend\n7. Format for WhatsApp: Use line breaks, avoid complex formatting\n\nGenerate the WhatsApp message now:"

/-- The mandatory verbatim disclaimer sentence required by rule 5. -/
def disclaimerSentence : String :=
  "📝 Note: This is general guidance based on your resume. Results may vary. Best wishes! 🙏"

/-- Shallow embedding of `buildPrompt(customerName, extractedText, language,
includeQuestions, includeAtsScore)` (lines 62-131 of the source): the template
literal is the concatenation of its fixed chunks and interpolated parts. -/
def buildPrompt (customerName extractedText language : String)
    (includeQuestions includeAtsScore : Bool) : String :=
  promptIntro ++ customerName ++ promptAfterName ++ extractedText ++ promptSections ++
    questionsSection includeQuestions ++ "\n" ++ atsSection includeAtsScore ++
    promptClosing ++ languageInstruction language ++ promptRules

/-- Outcome of one provider call through the AI gateway: a transport error or
a non-ok HTTP status (which the handler turns into a thrown error), or an ok
response whose extracted content is `choices?.[0]?.message?.content || ""`
(so a missing content field is already the empty string here). -/
inductive ProviderOutcome where
  | httpError (status : Nat)
  | success (content : String)

/-- Whether the first (Gemini) call is treated as failed by the handler: a
thrown fetch/HTTP error, or ok-but-empty content (line 211 of the source). -/
def primaryFails : ProviderOutcome → Bool
  | .httpError _ => true
  | .success c => c == ""

/-- What the serve handler observably produces from the generation section
(lines 181-260): a generated message with the `model_used` tag, one of the
two distinguished error responses (HTTP 429 / HTTP 402), or a generic error
propagated to the outer catch (returned as a 500 response). -/
inductive GenOutcome where
  | success (message modelUsed : String)
  | rateLimited
  | creditsExhausted
  | serverError (msg : String)
  deriving DecidableEq

/-- The fallback (second-provider) arm of the handler (lines 214-259): a
non-ok status of 429 or 402 yields the distinguished responses, any other
non-ok status throws a generic error, and ok-but-empty content also throws. -/
def fallbackStep : ProviderOutcome → GenOutcome
  | .httpError status =>
    if status = 429 then .rateLimited
    else if status = 402 then .creditsExhausted
    else .serverError ("Fallback API error: " ++ toString status)
  | .success c =>
    if c = "" then .serverError "Empty response from fallback model"
    else .success c "groq"

/-- The whole generation section of `serve` (lines 181-260): try Gemini; on
any failure (thrown HTTP error or empty content) run the single fallback
attempt; a successful Gemini call returns its content tagged `gemini`. -/
def generateFlow (p s : ProviderOutcome) : GenOutcome :=
  match p with
  | .success c => if c = "" then fallbackStep s else .success c "gemini"
  | .httpError _ => fallbackStep s

/-- Number of provider calls issued: one when Gemini succeeds with non-empty
content, two otherwise (the fallback is always called exactly once then). -/
def providerAttempts (p : ProviderOutcome) : Nat :=
  match p with
  | .success c => if c = "" then 2 else 1
  | .httpError _ => 2

/-- The shared system message of both provider calls (lines 196 and 229). -/
def systemContent : String :=
  "You are a helpful assistant that generates WhatsApp-ready messages for a Xerox shop. Be friendly, professional, and encouraging."

/-- Model name and message list of the first provider call (lines 193-199). -/
def geminiRequest (prompt : String) : String × List (String × String) :=
  ("google/gemini-3-flash-preview", [("system", systemContent), ("user", prompt)])

/-- Model name and message list of the fallback provider call (lines 226-232). -/
def fallbackRequest (prompt : String) : String × List (String × String) :=
  ("openai/gpt-5-mini", [("system", systemContent), ("user", prompt)])

/-- The six section-inclusion flags of a saved message template
(`include_sections` JSONB of `message_templates`; `Template` type of
TemplatesPage.tsx). -/
structure TemplateSections where
  appreciation : Bool
  feedback : Bool
  guidance : Bool
  job_roles : Bool
  interview_questions : Bool
  encouragement : Bool

/-- A saved message template (`message_templates` row; `Template` type of
TemplatesPage.tsx). -/
structure MessageTemplate where
  name : String
  customer_type : String
  tone : String
  custom_instructions : Option String
  include_sections : TemplateSections
  is_default : Bool

/-- The JSON body sent by the caller (HistoryPage.tsx, lines 584-592): it
includes a `templateId` when a template is selected.  The edge function's
`RequestBody` interface (lines 13-20 of index.ts) omits `templateId`, and the
handler's destructuring at line 143 drops it. -/
structure RequestBody where
  resumeId : String
  customerName : String
  language : String
  includeQuestions : Bool
  fileUrl : String
  fileType : String
  templateId : Option String

/-- The prompt the serve handler builds (line 179): `buildPrompt` applied to
the request fields and the extracted text.  The template resolved from the
request's `templateId` is passed here explicitly to make its (non-)use
expressible: the handler never reads it, so it does not occur on the
right-hand side. -/
def servePrompt (req : RequestBody) (tmpl : Option MessageTemplate)
    (includeAtsScore : Bool) (fetched : FetchOutcome) : String :=
  buildPrompt req.customerName (extractTextFromFile req.fileUrl req.fileType fetched)
    req.language req.includeQuestions includeAtsScore

theorem extract_fail (u t : String) : extractTextFromFile u t .fail = fallbackErr u t := rfl

theorem extract_pdf_gate (u body : String)
    (h : (joinSpace ((pdfFragments body.data).map String.mk)).length < 50) :
    extractTextFromFile u "pdf" (.ok body) = fallbackShort u "pdf" := by
  show (if (joinSpace ((pdfFragments body.data).map String.mk)).length < 50 then
      fallbackShort u "pdf"
    else joinSpace ((pdfFragments body.data).map String.mk)) = fallbackShort u "pdf"
  rw [if_pos h]

theorem extract_pdf_keep (u body : String)
    (h : ¬ (joinSpace ((pdfFragments body.data).map String.mk)).length < 50) :
    extractTextFromFile u "pdf" (.ok body) =
      joinSpace ((pdfFragments body.data).map String.mk) := by
  show (if (joinSpace ((pdfFragments body.data).map String.mk)).length < 50 then
      fallbackShort u "pdf"
    else joinSpace ((pdfFragments body.data).map String.mk)) = _
  rw [if_neg h]

theorem extract_other (u t body : String) (ht : ¬ t = "pdf") :
    extractTextFromFile u t (.ok body) =
      (if (String.mk (docxClean body.data)).length < 50 then fallbackShort u t
       else String.mk ((docxClean body.data).take 10000)) := by
  show (if t = "pdf" then _ else _) = _
  rw [if_neg ht]

theorem fallbackShort_pos (u t : String) : 0 < (fallbackShort u t).length := by
  unfold fallbackShort
  rw [strLength_append]
  have h : 0 < (". Please analyze based on typical resume structure." : String).length := by decide
  omega

theorem fallbackErr_pos (u t : String) : 0 < (fallbackErr u t).length := by
  unfold fallbackErr
  rw [strLength_append]
  have h : 0 < (". Unable to extract full text, please provide general guidance." : String).length := by
    decide
  omega

theorem length_mk (l : List Char) : (String.mk l).length = l.length := rfl

theorem generateFlow_of_primaryFails (p s : ProviderOutcome) (hp : primaryFails p = true) :
    generateFlow p s = fallbackStep s := by
  cases p with
  | httpError st => rfl
  | success c =>
    have hc : c = "" := by simpa [primaryFails] using hp
    subst hc
    simp [generateFlow]

theorem fallbackStep_success (s : ProviderOutcome) (t tag : String)
    (h : fallbackStep s = .success t tag) : t ≠ "" ∧ tag = "groq" ∧ s = .success t := by
  cases s with
  | httpError st =>
    simp only [fallbackStep] at h
    split_ifs at h <;> simp at h
  | success c =>
    simp only [fallbackStep] at h
    by_cases hc : c = ""
    · rw [if_pos hc] at h
      simp at h
    · rw [if_neg hc] at h
      injection h with h1 h2
      subst h1
      exact ⟨hc, h2.symm, rfl⟩

/-- C4: for every fetch outcome and declared file type, the extraction
operation returns a non-empty string — it never propagates a failure — and a
failed fetch (network error or non-ok status) is converted into the
descriptive `fallbackErr` string, so the pipeline always reaches the
completion stage with usable text. -/
theorem c4_extraction_never_fails (fileUrl fileType : String) (fetched : FetchOutcome) :
    0 < (extractTextFromFile fileUrl fileType fetched).length ∧
    (fetched = .fail → extractTextFromFile fileUrl fileType fetched = fallbackErr fileUrl fileType) := by
  cases fetched with
  | fail => exact ⟨fallbackErr_pos fileUrl fileType, fun _ => rfl⟩
  | ok body =>
    refine ⟨?_, fun h => FetchOutcome.noConfusion h⟩
    by_cases ht : fileType = "pdf"
    · subst ht
      by_cases hlen : (joinSpace ((pdfFragments body.data).map String.mk)).length < 50
      · rw [extract_pdf_gate fileUrl body hlen]
        exact fallbackShort_pos _ _
      · rw [extract_pdf_keep fileUrl body hlen]
        omega
    · rw [extract_other fileUrl fileType body ht]
      by_cases hlen : (String.mk (docxClean body.data)).length < 50
      · rw [if_pos hlen]
        exact fallbackShort_pos _ _
      · rw [if_neg hlen]
        rw [length_mk] at hlen ⊢
        rw [List.length_take]
        omega

/-- C4 witness: the theorem instantiated at a concrete failed fetch. -/
theorem c4_extraction_never_fails_witness :
    0 < (extractTextFromFile "https://x" "pdf" .fail).length ∧
    extractTextFromFile "https://x" "pdf" .fail = fallbackErr "https://x" "pdf" :=
  ⟨(c4_extraction_never_fails "https://x" "pdf" .fail).1,
   (c4_extraction_never_fails "https://x" "pdf" .fail).2 rfl⟩

/-- C5: the completion section makes at most two provider attempts; a
successful Gemini call is returned as-is with the `gemini` tag; whenever the
primary attempt fails (thrown HTTP error or empty content) the result is
exactly the single fallback attempt and exactly two calls are made; any
success carries non-empty text whose tag names the provider that produced it;
and both provider calls share the same system message and prompt. -/
theorem c5_single_fallback_retry (p s : ProviderOutcome) :
    providerAttempts p ≤ 2 ∧
    (primaryFails p = false → ∀ c, p = .success c → generateFlow p s = .success c "gemini") ∧
    (primaryFails p = true → generateFlow p s = fallbackStep s ∧ providerAttempts p = 2) ∧
    (∀ t tag, generateFlow p s = .success t tag →
      t ≠ "" ∧ ((tag = "gemini" ∧ p = .success t) ∨ (tag = "groq" ∧ s = .success t))) ∧
    (∀ prompt, (geminiRequest prompt).2 = (fallbackRequest prompt).2) := by
  refine ⟨?_, ?_, ?_, ?_, fun prompt => rfl⟩
  · cases p with
    | httpError st => exact Nat.le_refl 2
    | success c =>
      by_cases hc : c = "" <;> simp [providerAttempts, hc]
  · intro hpf c hpc
    subst hpc
    have hc : ¬ c = "" := by simpa [primaryFails] using hpf
    show (if c = "" then fallbackStep s else GenOutcome.success c "gemini") = _
    rw [if_neg hc]
  · intro hpf
    refine ⟨generateFlow_of_primaryFails p s hpf, ?_⟩
    cases p with
    | httpError st => rfl
    | success c =>
      have hc : c = "" := by simpa [primaryFails] using hpf
      subst hc
      rfl
  · intro t tag hgen
    cases p with
    | httpError st =>
      have := fallbackStep_success s t tag hgen
      exact ⟨this.1, Or.inr ⟨this.2.1, this.2.2⟩⟩
    | success c =>
      by_cases hc : c = ""
      · subst hc
        have hg : fallbackStep s = .success t tag := by
          simpa [generateFlow] using hgen
        have := fallbackStep_success s t tag hg
        exact ⟨this.1, Or.inr ⟨this.2.1, this.2.2⟩⟩
      · have hg : GenOutcome.success c "gemini" = .success t tag := by
          have hflow : generateFlow (.success c) s = .success c "gemini" := by
            show (if c = "" then fallbackStep s else GenOutcome.success c "gemini") = _
            rw [if_neg hc]
          rw [hflow] at hgen
          exact hgen
        injection hg with h1 h2
        subst h1
        exact ⟨hc, Or.inl ⟨h2.symm, rfl⟩⟩

/-- C5 witness: the theorem instantiated at a failed primary call and a
successful fallback. -/
theorem c5_single_fallback_retry_witness :
    primaryFails (.httpError 500) = true ∧
    generateFlow (.httpError 500) (.success "msg") = fallbackStep (.success "msg") ∧
    providerAttempts (.httpError 500) = 2 :=
  ⟨rfl, ((c5_single_fallback_retry (.httpError 500) (.success "msg")).2.2.1 rfl).1,
    ((c5_single_fallback_retry (.httpError 500) (.success "msg")).2.2.1 rfl).2⟩

/-- C6: when the primary attempt has failed and the secondary provider also
fails with an HTTP status, the caller sees the distinguished rate-limited
response exactly for status 429, the distinguished credits-exhausted response
exactly for status 402, and the generic error for every other status. -/
theorem c6_secondary_failure_classification (p : ProviderOutcome) (st : Nat)
    (hp : primaryFails p = true) :
    (generateFlow p (.httpError st) = .rateLimited ↔ st = 429) ∧
    (generateFlow p (.httpError st) = .creditsExhausted ↔ st = 402) ∧
    (st ≠ 429 → st ≠ 402 →
      generateFlow p (.httpError st) = .serverError ("Fallback API error: " ++ toString st)) := by
  rw [generateFlow_of_primaryFails p _ hp]
  simp only [fallbackStep]
  by_cases h429 : st = 429
  · subst h429
    refine ⟨⟨fun _ => rfl, fun _ => by rw [if_pos rfl]⟩, ⟨fun hg => ?_, fun hg => by omega⟩,
      fun hn _ => absurd rfl hn⟩
    rw [if_pos rfl] at hg
    exact absurd hg (by simp)
  · by_cases h402 : st = 402
    · subst h402
      rw [if_neg h429, if_pos rfl]
      refine ⟨⟨fun hg => absurd hg (by simp), fun hg => by omega⟩,
        ⟨fun _ => rfl, fun _ => rfl⟩, fun _ hn => absurd rfl hn⟩
    · rw [if_neg h429, if_neg h402]
      exact ⟨⟨fun hg => absurd hg (by simp), fun hg => absurd hg h429⟩,
        ⟨fun hg => absurd hg (by simp), fun hg => absurd hg h402⟩, fun _ _ => rfl⟩

/-- C6 witness: a rate-limited secondary response after a failed primary. -/
theorem c6_secondary_failure_classification_witness :
    generateFlow (.httpError 503) (.httpError 429) = .rateLimited :=
  (c6_secondary_failure_classification (.httpError 503) 429 rfl).1.mpr rfl

theorem containsStr_buildPrompt_rules (n : String) (h : containsStr n promptRules = true)
    (name text lang : String) (q ats : Bool) :
    containsStr n (buildPrompt name text lang q ats) = true := by
  unfold buildPrompt
  exact containsStr_append_right _ _ _ h

theorem containsStr_buildPrompt_lang (name text lang : String) (q ats : Bool) :
    containsStr (languageInstruction lang) (buildPrompt name text lang q ats) = true := by
  unfold buildPrompt
  exact containsStr_append_left _ _ _ (containsStr_append_right _ _ _ (containsStr_self _))

theorem containsStr_buildPrompt_questions (name text lang : String) (ats : Bool) :
    containsStr "✅ Interview Questions Section:" (buildPrompt name text lang true ats) = true := by
  unfold buildPrompt
  have h : containsStr "✅ Interview Questions Section:" (questionsSection true) = true := by
    decide
  exact containsStr_append_left _ _ _ (containsStr_append_left _ _ _
    (containsStr_append_left _ _ _ (containsStr_append_left _ _ _
      (containsStr_append_left _ _ _ (containsStr_append_right _ _ _ h)))))

/-- C9: every built prompt contains the mandatory verbatim disclaimer
sentence and the language clause selected for its language setting; the three
settings map to the three fixed clauses, and the `both` clause orders the
English version before the Tamil version. -/
theorem c9_disclaimer_and_language_clauses (name text lang : String) (q ats : Bool) :
    containsStr disclaimerSentence (buildPrompt name text lang q ats) = true ∧
    containsStr (languageInstruction lang) (buildPrompt name text lang q ats) = true ∧
    languageInstruction "english" = "Write the entire message in English only." ∧
    languageInstruction "tamil" = "Write the entire message in Tamil language only." ∧
    languageInstruction "both" =
      "Write the message in both English and Tamil. First provide the English version, then the Tamil version." ∧
    (∃ pre mid post : String, languageInstruction "both" =
      pre ++ "English version" ++ mid ++ "Tamil version" ++ post) := by
  refine ⟨?_, containsStr_buildPrompt_lang name text lang q ats, by decide, by decide, by decide,
    ⟨"Write the message in both English and Tamil. First provide the ", ", then the ", ".",
      by decide⟩⟩
  apply containsStr_buildPrompt_rules
  decide

/-- C10: for every language value other than `tamil` and `both` — including
the empty string and arbitrary unrecognized values — the builder falls
through to the English-only instruction, which then appears in the prompt. -/
theorem c10_unrecognized_language_defaults_english (name text lang : String) (q ats : Bool)
    (h1 : lang ≠ "tamil") (h2 : lang ≠ "both") :
    languageInstruction lang = "Write the entire message in English only." ∧
    containsStr "Write the entire message in English only."
      (buildPrompt name text lang q ats) = true := by
  have he : languageInstruction lang = "Write the entire message in English only." := by
    unfold languageInstruction
    rw [if_neg h1, if_neg h2]
  refine ⟨he, ?_⟩
  have hc := containsStr_buildPrompt_lang name text lang q ats
  rw [he] at hc
  exact hc

/-- C10 witness: the empty string is not a recognized language and yields the
English-only instruction. -/
theorem c10_unrecognized_language_defaults_english_witness :
    ("" : String) ≠ "tamil" ∧ ("" : String) ≠ "both" ∧
    (languageInstruction "" = "Write the entire message in English only." ∧
     containsStr "Write the entire message in English only."
       (buildPrompt "Asha" "resume text" "" true false) = true) :=
  ⟨by decide, by decide,
    c10_unrecognized_language_defaults_english "Asha" "resume text" "" true false
      (by decide) (by decide)⟩

/-- C1 counterexample: a PDF byte text whose single parenthesized run holds
15,001 characters is returned at full length — the extraction operation
enforces no 15,000-character cap on the PDF branch. -/
theorem c1_no_15000_cap_counterexample :
    15000 < (extractTextFromFile "https://x" "pdf"
      (.ok (String.mk ('(' :: (List.replicate 15001 'a' ++ ')' :: []))))).length := by
  have hmem : ∀ c ∈ List.replicate 15001 'a', c ≠ ')' ∧ isLineTerm c = false := by
    intro c hc
    rw [List.eq_of_mem_replicate hc]
    exact ⟨by decide, by decide⟩
  have hfrag : pdfFragments ('(' :: (List.replicate 15001 'a' ++ ')' :: [])) =
      [List.replicate 15001 'a'] := by
    rw [pdfFragments_open _ _ hmem, pdfFragments_nil]
  have hjoin : joinSpace ((pdfFragments ((String.mk
      ('(' :: (List.replicate 15001 'a' ++ ')' :: []))).data)).map String.mk) =
      String.mk (List.replicate 15001 'a') := by
    show joinSpace ((pdfFragments
      ('(' :: (List.replicate 15001 'a' ++ ')' :: []))).map String.mk) = _
    rw [hfrag]
    rfl
  have hlen : (String.mk (List.replicate 15001 'a')).length = 15001 := by
    rw [length_mk, List.length_replicate]
  have hn : ¬ (joinSpace ((pdfFragments ((String.mk
      ('(' :: (List.replicate 15001 'a' ++ ')' :: []))).data)).map String.mk)).length < 50 := by
    rw [hjoin, hlen]
    omega
  rw [extract_pdf_keep _ _ hn, hjoin, hlen]
  omega

/-- C1 (amended): there is no 15,000-character bound; only the DOCX branch
truncates, to 10,000 characters — for a `docx` file whose cleaned text passes
the 50-character gate, the returned text has length at most 10,000, while PDF
text is returned at whatever length the joined fragments have. -/
theorem c1_docx_capped_at_10000 (u body : String)
    (h : 50 ≤ (docxClean body.data).length) :
    (extractTextFromFile u "docx" (.ok body)).length ≤ 10000 := by
  have ht : ¬ ("docx" : String) = "pdf" := by decide
  rw [extract_other u "docx" body ht]
  rw [if_neg (by rw [length_mk]; omega)]
  rw [length_mk, List.length_take]
  omega

/-- C1 witness: the amended bound at a concrete 60-character docx body. -/
theorem c1_docx_capped_at_10000_witness :
    50 ≤ (docxClean ((String.mk (List.replicate 60 'b')).data)).length ∧
    (extractTextFromFile "https://x" "docx"
      (.ok (String.mk (List.replicate 60 'b')))).length ≤ 10000 := by
  have hd : docxClean (List.replicate 60 'b') = List.replicate 60 'b' := by
    unfold docxClean
    rw [stripTags_id _ (by simp [List.mem_replicate])]
    rw [collapseWs_id _ (fun c hc => by rw [List.eq_of_mem_replicate hc]; decide)]
    rw [jsTrim_id _ (fun c hc => by rw [List.eq_of_mem_replicate hc]; decide)]
  have hlen : 50 ≤ (docxClean (List.replicate 60 'b')).length := by
    rw [hd]
    simp
  exact ⟨hlen, c1_docx_capped_at_10000 "https://x" (String.mk (List.replicate 60 'b')) hlen⟩

/-- C2 counterexample: the raw extracted text `hello` has fewer than 100
characters, yet the returned string is the fixed placeholder which does not
contain `hello` — the fallback replaces the extracted text, it does not wrap
it. -/
theorem c2_wrap_counterexample :
    extractTextFromFile "https://x" "pdf"
      (.ok (String.mk ('(' :: ("hello".data ++ ')' :: [])))) =
      fallbackShort "https://x" "pdf" ∧
    containsStr "hello" (fallbackShort "https://x" "pdf") = false := by
  constructor
  · have hmem : ∀ c ∈ ("hello".data : List Char), c ≠ ')' ∧ isLineTerm c = false := by decide
    have hfrag : pdfFragments ('(' :: ("hello".data ++ ')' :: [])) = ["hello".data] := by
      rw [pdfFragments_open _ _ hmem, pdfFragments_nil]
    apply extract_pdf_gate
    show (joinSpace ((pdfFragments
      ('(' :: ("hello".data ++ ')' :: []))).map String.mk)).length < 50
    rw [hfrag]
    decide
  · decide

/-- C2 (amended): the quality-gate threshold is 50 characters, not 100, and
below it the extracted text is replaced by a fixed placeholder carrying an
explanatory phrase but not the extracted text; from 50 characters on the text
is returned unchanged with no explanatory wrapper. -/
theorem c2_gate_threshold_50_replaces (u body : String) :
    ((joinSpace ((pdfFragments body.data).map String.mk)).length < 50 →
      extractTextFromFile u "pdf" (.ok body) = fallbackShort u "pdf") ∧
    (50 ≤ (joinSpace ((pdfFragments body.data).map String.mk)).length →
      extractTextFromFile u "pdf" (.ok body) =
        joinSpace ((pdfFragments body.data).map String.mk)) ∧
    containsStr "Please analyze based on typical resume structure."
      (fallbackShort u "pdf") = true := by
  refine ⟨extract_pdf_gate u body, fun h => extract_pdf_keep u body (by omega), ?_⟩
  unfold fallbackShort
  exact containsStr_append_right _ _ _ (by decide)

/-- C2 witness: the amended behaviour at the concrete body `(hello)`. -/
theorem c2_gate_threshold_50_replaces_witness :
    (joinSpace ((pdfFragments (("(hello)" : String).data)).map String.mk)).length < 50 ∧
    extractTextFromFile "https://x" "pdf" (.ok "(hello)") =
      fallbackShort "https://x" "pdf" := by
  have hd : ("(hello)" : String).data = '(' :: ("hello".data ++ ')' :: []) := by decide
  have hmem : ∀ c ∈ ("hello".data : List Char), c ≠ ')' ∧ isLineTerm c = false := by decide
  have hlen : (joinSpace ((pdfFragments
      (("(hello)" : String).data)).map String.mk)).length < 50 := by
    rw [hd, pdfFragments_open _ _ hmem, pdfFragments_nil]
    decide
  exact ⟨hlen, (c2_gate_threshold_50_replaces "https://x" "(hello)").1 hlen⟩

theorem extract_paren_pair (u : String) (f : List Char)
    (hf : ∀ c ∈ f, c ≠ ')' ∧ isLineTerm c = false) (hlen : 50 ≤ 2 * f.length + 1) :
    extractTextFromFile u "pdf"
      (.ok (String.mk ('(' :: (f ++ ')' :: '(' :: (f ++ ')' :: []))))) =
      String.mk f ++ " " ++ String.mk f := by
  have hfrag : pdfFragments ('(' :: (f ++ ')' :: '(' :: (f ++ ')' :: []))) = [f, f] := by
    rw [pdfFragments_open _ _ hf, pdfFragments_open _ _ hf, pdfFragments_nil]
  have hjoin : joinSpace (([f, f]).map String.mk) = String.mk f ++ " " ++ String.mk f := rfl
  have hl : (String.mk f ++ " " ++ String.mk f).length = 2 * f.length + 1 := by
    rw [strLength_append, strLength_append, length_mk, length_mk]
    rw [show (" " : String).data.length = 1 from rfl]
    omega
  have hn : ¬ (joinSpace ((pdfFragments ((String.mk
      ('(' :: (f ++ ')' :: '(' :: (f ++ ')' :: [])))).data)).map String.mk)).length < 50 := by
    show ¬ (joinSpace ((pdfFragments
      ('(' :: (f ++ ')' :: '(' :: (f ++ ')' :: [])))).map String.mk)).length < 50
    rw [hfrag, hjoin, hl]
    omega
  rw [extract_pdf_keep _ _ hn]
  show joinSpace ((pdfFragments
    ('(' :: (f ++ ')' :: '(' :: (f ++ ')' :: [])))).map String.mk) = _
  rw [hfrag]
  exact hjoin

/-- C7 counterexample: a PDF containing the same 25-character fragment twice
produces a final text in which that fragment occurs at two positions — the
fragments are not deduplicated before joining. -/
theorem c7_dedup_counterexample :
    pdfFragments ('(' :: (List.replicate 25 'a' ++ ')' :: '(' ::
        (List.replicate 25 'a' ++ ')' :: []))) =
      [List.replicate 25 'a', List.replicate 25 'a'] ∧
    countOccur (List.replicate 25 'a')
      ((extractTextFromFile "https://x" "pdf"
        (.ok (String.mk ('(' :: (List.replicate 25 'a' ++ ')' :: '(' ::
          (List.replicate 25 'a' ++ ')' :: [])))))).data) = 2 := by
  have hmem : ∀ c ∈ List.replicate 25 'a', c ≠ ')' ∧ isLineTerm c = false := by
    intro c hc
    rw [List.eq_of_mem_replicate hc]
    exact ⟨by decide, by decide⟩
  constructor
  · rw [pdfFragments_open _ _ hmem, pdfFragments_open _ _ hmem, pdfFragments_nil]
  · rw [extract_paren_pair "https://x" (List.replicate 25 'a') hmem (by simp)]
    decide

/-- C7 (amended): the recovered fragments are joined in order with single
spaces and are not deduplicated — a fragment occurring in two parenthesized
runs appears twice in the final extracted text (whenever the joined text
passes the 50-character gate). -/
theorem c7_fragments_not_deduplicated (u : String) (f : List Char)
    (hf : ∀ c ∈ f, c ≠ ')' ∧ isLineTerm c = false) (hlen : 50 ≤ 2 * f.length + 1) :
    extractTextFromFile u "pdf"
      (.ok (String.mk ('(' :: (f ++ ')' :: '(' :: (f ++ ')' :: []))))) =
      String.mk f ++ " " ++ String.mk f :=
  extract_paren_pair u f hf hlen

/-- C7 witness: the amended statement at the concrete duplicated fragment. -/
theorem c7_fragments_not_deduplicated_witness :
    (∀ c ∈ List.replicate 25 'b', c ≠ ')' ∧ isLineTerm c = false) ∧
    50 ≤ 2 * (List.replicate 25 'b').length + 1 ∧
    extractTextFromFile "https://x" "pdf"
      (.ok (String.mk ('(' :: (List.replicate 25 'b' ++ ')' :: '(' ::
        (List.replicate 25 'b' ++ ')' :: []))))) =
      String.mk (List.replicate 25 'b') ++ " " ++ String.mk (List.replicate 25 'b') := by
  have hmem : ∀ c ∈ List.replicate 25 'b', c ≠ ')' ∧ isLineTerm c = false := by
    intro c hc
    rw [List.eq_of_mem_replicate hc]
    exact ⟨by decide, by decide⟩
  exact ⟨hmem, by simp,
    c7_fragments_not_deduplicated "https://x" (List.replicate 25 'b') hmem (by simp)⟩

theorem c8_extract_eval :
    pdfFragments (("BT (Hello World) Tj ET" : String).data) = [("Hello World" : String).data] ∧
    extractTextFromFile "https://x" "pdf" (.ok "BT (Hello World) Tj ET") =
      fallbackShort "https://x" "pdf" := by
  have hd : ("BT (Hello World) Tj ET" : String).data =
      'B' :: 'T' :: ' ' :: '(' :: (("Hello World" : String).data ++ ')' ::
        ((" Tj ET" : String).data)) := by decide
  have hmem : ∀ c ∈ (("Hello World" : String).data : List Char),
      c ≠ ')' ∧ isLineTerm c = false := by decide
  have hfrag : pdfFragments (("BT (Hello World) Tj ET" : String).data) =
      [("Hello World" : String).data] := by
    rw [hd, pdfFragments_skip 'B' _ (by decide), pdfFragments_skip 'T' _ (by decide),
      pdfFragments_skip ' ' _ (by decide), pdfFragments_open _ _ hmem,
      pdfFragments_no_open ((" Tj ET" : String).data) (by decide)]
  refine ⟨hfrag, ?_⟩
  apply extract_pdf_gate
  show (joinSpace ((pdfFragments
    (("BT (Hello World) Tj ET" : String).data)).map String.mk)).length < 50
  rw [hfrag]
  decide

/-- C8 counterexample: on the scenario input the fragment `Hello World` is
recovered, but the 11-character joined text falls below the 50-character gate,
so the returned text is the placeholder — which does not contain
`Hello World`. -/
theorem c8_hello_world_counterexample :
    pdfFragments (("BT (Hello World) Tj ET" : String).data) = [("Hello World" : String).data] ∧
    extractTextFromFile "https://x" "pdf" (.ok "BT (Hello World) Tj ET") =
      fallbackShort "https://x" "pdf" ∧
    containsStr "Hello World" (fallbackShort "https://x" "pdf") = false :=
  ⟨c8_extract_eval.1, c8_extract_eval.2, by decide⟩

/-- C8 (amended): the scan yields exactly the fragment `Hello World`, and the
final returned text is non-empty — but it is the fixed placeholder (the
11-character joined text is below the 50-character quality gate), not a text
containing the fragment. -/
theorem c8_hello_world_amended :
    pdfFragments (("BT (Hello World) Tj ET" : String).data) = [("Hello World" : String).data] ∧
    extractTextFromFile "https://x" "pdf" (.ok "BT (Hello World) Tj ET") =
      fallbackShort "https://x" "pdf" ∧
    fallbackShort "https://x" "pdf" ≠ "" :=
  ⟨c8_extract_eval.1, c8_extract_eval.2, by decide⟩

/-- Concrete request for the C3 scenario: the standalone `includeQuestions`
flag is true and the body carries a `templateId`. -/
def c3Request : RequestBody :=
  { resumeId := "resume-1", customerName := "Asha", language := "english",
    includeQuestions := true, fileUrl := "https://x", fileType := "pdf",
    templateId := some "template-1" }

/-- Concrete template for the C3 scenario: its `interview_questions` section
flag is false. -/
def c3Template : MessageTemplate :=
  { name := "No questions", customer_type := "fresher", tone := "professional",
    custom_instructions := none,
    include_sections :=
      { appreciation := true, feedback := true, guidance := true, job_roles := true,
        interview_questions := false, encouragement := true },
    is_default := false }

/-- C3: the handler evaluated at the failing input — the request carries a
template whose `interview_questions` flag is false while the standalone
`includeQuestions` flag is true, yet the built prompt does contain the
interview-questions block, and indeed the prompt is identical whatever
template the request carries: the deployed revision drops `templateId`
entirely, so the template's flag never wins. -/
theorem c3_template_flag_ignored :
    c3Template.include_sections.interview_questions = false ∧
    c3Request.includeQuestions = true ∧
    containsStr "✅ Interview Questions Section:"
      (servePrompt c3Request (some c3Template) false .fail) = true ∧
    (∀ t1 t2 : Option MessageTemplate, ∀ ats : Bool, ∀ fetched : FetchOutcome,
      servePrompt c3Request t1 ats fetched = servePrompt c3Request t2 ats fetched) := by
  refine ⟨rfl, rfl, ?_, fun t1 t2 ats fetched => rfl⟩
  exact containsStr_buildPrompt_questions c3Request.customerName
    (extractTextFromFile c3Request.fileUrl c3Request.fileType .fail) c3Request.language false
